import Mathlib

/-
Shallow embedding of the hid-tminit Thrustmaster wheel initialization driver
(src/tminit.c, src/tminit.h, src/hid-tminit.c).

The driver identifies which Thrustmaster wheel hides behind the generic
"Thrustmaster FFB Wheel" USB identity and sends it a model-specific control
request to switch it to its full-feature mode.  We embed:

  - the static model catalog `tm_wheels_infos` (tminit.c lines 67-79);
  - the byte-level decoding of the packed `tm_wheel_response` struct
    (tminit.h) as performed by `thrustmaster_model_handler`
    (tminit.c lines 206-217);
  - the two-loop (model, attachment) resolution algorithm of
    `thrustmaster_model_handler` (tminit.c lines 219-229);
  - the completion handler for the mode-switch request,
    `thrustmaster_change_handler` (tminit.c lines 144-158);
  - the pre-init interrupt quirk sequencer `thrustmaster_interrupts`
    (tminit.c lines 104-142) and the probe entry point `thrustmaster_probe`
    (tminit.c lines 261-343), with the external USB stack (allocation
    outcomes, per-transfer return codes, endpoint count, product id)
    supplied as explicit parameters.

Machine integers (uint8_t, uint16_t, array indices) are modelled as `Nat`;
URB status codes and kernel return values, which are negative errnos, as
`Int`.
-/

set_option autoImplicit false

namespace Tminit

/-- One row of the wheel catalog: `struct tm_wheel_info` (tminit.c lines 50-61).
`model` and `attachment` are `uint8_t`, `switch_value` a `uint16_t`. -/
structure tm_wheel_info where
  model : Nat
  attachment : Nat
  switch_value : Nat
  wheel_name : String
deriving DecidableEq

instance : Inhabited tm_wheel_info :=
  ⟨⟨0, 0, 0, ""⟩⟩

/-- The known-wheels catalog `tm_wheels_infos` (tminit.c lines 67-77).
The commented-out TMX row is absent, exactly as in the source. -/
def tm_wheels_infos : List tm_wheel_info :=
  [⟨0x00, 0x02, 0x0002, "Thrustmaster T500RS"⟩,
   ⟨0x02, 0x00, 0x0005, "Thrustmaster T300RS (Missing Attachment)"⟩,
   ⟨0x02, 0x03, 0x0005, "Thrustmaster T300RS (F1 attachment)"⟩,
   ⟨0x02, 0x04, 0x0005, "Thrustmaster T300 Ferrari Alcantara Edition"⟩,
   ⟨0x02, 0x06, 0x0005, "Thrustmaster T300RS"⟩,
   ⟨0x02, 0x09, 0x0005, "Thrustmaster T300RS (Open Wheel Attachment)"⟩,
   ⟨0x03, 0x06, 0x0006, "Thrustmaster T150RS"⟩,
   ⟨0x00, 0x09, 0x000b, "Thrustmaster T128"⟩]

/-- `tm_wheels_infos_length` (tminit.c line 79): the loop bound used by the
resolution loops.  It equals the length of the catalog, so iterating the loops
up to this bound is iterating over the whole list. -/
def tm_wheels_infos_length : Nat := 8

theorem tm_wheels_infos_length_eq : tm_wheels_infos.length = tm_wheels_infos_length := rfl

/-! ## Wire decoding of the probe response

`struct tm_wheel_response` (tminit.h) is `__packed`, so its byte layout is
fixed: the little-endian `uint16_t type` occupies bytes 0-1, and the union
`data` starts at byte 2.  In both union arms the prefix is
`uint16_t field0; uint16_t field1; uint8_t attachment; uint8_t model;`,
placing `attachment` at byte 2+2+2 = 6 and `model` at byte 7 for the `a`
(15-byte payload) arm as well as the `b` (7-byte payload) arm.

The response buffer is `kzalloc`ed at the full struct size, so bytes the
device did not fill read as zero: we model the buffer as a `List Nat` and
read with `List.getD _ 0`. -/

/-- Read a little-endian 16-bit value at byte offset `off`. -/
def le16 (bytes : List Nat) (off : Nat) : Nat :=
  bytes.getD off 0 + 256 * bytes.getD (off + 1) 0

/-- Byte offset of `data.a.attachment` in `tm_wheel_response`:
2 (type) + 2 (a.field0) + 2 (a.field1). -/
def a_attachment_offset : Nat := 2 + 2 + 2

/-- Byte offset of `data.a.model`: directly after `data.a.attachment`. -/
def a_model_offset : Nat := a_attachment_offset + 1

/-- Byte offset of `data.b.attachment` in `tm_wheel_response`:
2 (type) + 2 (b.field0) + 2 (b.field1). -/
def b_attachment_offset : Nat := 2 + 2 + 2

/-- Byte offset of `data.b.model`: directly after `data.b.attachment`. -/
def b_model_offset : Nat := b_attachment_offset + 1

/-- Result of decoding the probe response tag and extracting
(model, attachment), per the branches of `thrustmaster_model_handler`
(tminit.c lines 206-217). -/
inductive DecodeResult where
  | layoutA (model attachment : Nat)
  | layoutB (model attachment : Nat)
  | unknownFormat (tag : Nat)
deriving DecidableEq

/-- The decode performed at tminit.c lines 206-217: compare the little-endian
`type` field against `cpu_to_le16(0x49)` and `cpu_to_le16(0x47)`, reading
(model, attachment) from the corresponding union arm. -/
def decodeProbeResponse (bytes : List Nat) : DecodeResult :=
  let tag := le16 bytes 0
  if tag = 0x49 then
    DecodeResult.layoutA (bytes.getD a_model_offset 0) (bytes.getD a_attachment_offset 0)
  else if tag = 0x47 then
    DecodeResult.layoutB (bytes.getD b_model_offset 0) (bytes.getD b_attachment_offset 0)
  else
    DecodeResult.unknownFormat tag

/-- The (model, attachment) pair carried by a recognized decode result. -/
def decoded_ma : DecodeResult → Option (Nat × Nat)
  | DecodeResult.layoutA model attachment => some (model, attachment)
  | DecodeResult.layoutB model attachment => some (model, attachment)
  | DecodeResult.unknownFormat _ => none

/-! ## Catalog resolution

`thrustmaster_model_handler` (tminit.c lines 219-229) runs two loops over
`tm_wheels_infos`:

    for (i = 0; i < tm_wheels_infos_length && !twi; i++)
        if (tm_wheels_infos[i].model == model)
            twi = tm_wheels_infos + i;

finds the first entry whose model matches (`find_model` below returns that
entry together with the remaining suffix of the catalog, which is where `i`
points when the loop exits), and then

    for (attachment_found = twi->attachment == attachment;
         !attachment_found && i < tm_wheels_infos_length
             && tm_wheels_infos[i].model == model; i++)
        if (tm_wheels_infos[i].attachment == attachment) { twi = ...; ... }

scans forward from `i` through entries still sharing the model code for an
attachment match (`scan_attachment`), keeping the first-found entry as a
fallback when no attachment matches. -/

/-- First catalog suffix scan: the first loop of tminit.c lines 219-221.
Returns the first entry with the given model code together with the entries
after it. -/
def find_model (model : Nat) : List tm_wheel_info → Option (tm_wheel_info × List tm_wheel_info)
  | [] => none
  | e :: rest => if e.model = model then some (e, rest) else find_model model rest

/-- The forward attachment scan: the second loop of tminit.c lines 225-229,
started one past the first-found entry.  The loop condition tests the model
code before the body, so the scan stops at the first entry of a different
model. -/
def scan_attachment (model attachment : Nat) : List tm_wheel_info → Option tm_wheel_info
  | [] => none
  | e :: rest =>
      if e.model = model then
        if e.attachment = attachment then some e
        else scan_attachment model attachment rest
      else none

/-- Full resolution as performed by tminit.c lines 219-229.  Returns the
resolved entry together with the final value of `attachment_found`;
`none` corresponds to `twi == NULL` (unknown model). -/
def resolve (model attachment : Nat) : Option (tm_wheel_info × Bool) :=
  match find_model model tm_wheels_infos with
  | none => none
  | some (twi, rest) =>
      if twi.attachment = attachment then some (twi, true)
      else
        match scan_attachment model attachment rest with
        | some twi2 => some (twi2, true)
        | none => some (twi, false)

/-! ## The query-completion handler

`thrustmaster_model_handler` (tminit.c lines 191-242) is the URB completion
callback for the model query.  Its observable outcome per invocation is one
of: abort on transport error (`urb->status != 0`, line 201), abort on an
unrecognized response tag (lines 212-217), abort on an unknown model
(lines 235-239), or submission of the mode-switch request with the resolved
entry's switch value (line 241). -/

/-- Outcome of one invocation of `thrustmaster_model_handler`. -/
inductive HandlerResult where
  | queryTransportError (status : Int)
  | unrecognizedResponse (tag : Nat)
  | unknownModel (model : Nat)
  | switchSubmitted (switch_value : Nat)
deriving DecidableEq

/-- `thrustmaster_model_handler` (tminit.c lines 191-242), as a function of
the URB status and the bytes of the response buffer. -/
def thrustmaster_model_handler (status : Int) (bytes : List Nat) : HandlerResult :=
  if status ≠ 0 then HandlerResult.queryTransportError status
  else
    match decoded_ma (decodeProbeResponse bytes) with
    | none => HandlerResult.unrecognizedResponse (le16 bytes 0)
    | some (model, attachment) =>
        match resolve model attachment with
        | none => HandlerResult.unknownModel model
        | some (twi, _) => HandlerResult.switchSubmitted twi.switch_value

/-- The switch values submitted by one handler invocation: `[v]` exactly when
the handler reached the `thrustmaster_submit_change` call at line 241. -/
def switch_submissions : HandlerResult → List Nat
  | HandlerResult.switchSubmitted v => [v]
  | _ => []

/-! ## The switch-completion handler -/

/-- Linux errno `EPROTO` (protocol error), 71. -/
def EPROTO : Int := 71

/-- Linux errno `EPIPE` (endpoint stall / broken pipe), 32. -/
def EPIPE : Int := 32

/-- Outcome of `thrustmaster_change_handler`: `success` is the
"the wheel should have been initialized" path (the session is done, no
failure surfaced); `switchTransportError` is the warning path.  The handler
never resubmits anything, so neither outcome carries further submissions. -/
inductive ChangeOutcome where
  | success
  | switchTransportError (status : Int)
deriving DecidableEq

/-- `thrustmaster_change_handler` (tminit.c lines 144-158): a clean status,
`-EPROTO` or `-EPIPE` is success (the wheel kills itself while answering,
violating the USB protocol); any other status is only warned about. -/
def thrustmaster_change_handler (status : Int) : ChangeOutcome :=
  if status = 0 ∨ status = -EPROTO ∨ status = -EPIPE then ChangeOutcome.success
  else ChangeOutcome.switchTransportError status

/-! ## Quirk interrupts and the probe entry point

`thrustmaster_interrupts` (tminit.c lines 104-142) sends the five fixed
`setup_*` packets one at a time with the synchronous `usb_interrupt_msg`,
stopping at the first failure; `thrustmaster_probe` (lines 261-343)
allocates the session buffers, takes the hard-coded early-switch path for
product id 0xb69c (the T128), and otherwise runs the interrupts and submits
the model query.

The USB stack is external: a `ProbeEnv` records the outcome of each
allocation, the endpoint count of the active interface, the return code of
each `usb_interrupt_msg` call, and the return code of the one
`usb_submit_urb` call the probe makes. -/

/-- Interrupt packet `setup_0` (tminit.c line 27). -/
def setup_0 : List Nat := [0x42, 0x01, 0x00, 0x00, 0x00, 0x00, 0x00, 0x00, 0x00]

/-- Interrupt packet `setup_1` (tminit.c line 28). -/
def setup_1 : List Nat := [0x0a, 0x04, 0x90, 0x03, 0x00, 0x00, 0x00, 0x00]

/-- Interrupt packet `setup_2` (tminit.c line 29). -/
def setup_2 : List Nat := [0x0a, 0x04, 0x00, 0x0c, 0x00, 0x00, 0x00, 0x00]

/-- Interrupt packet `setup_3` (tminit.c line 30). -/
def setup_3 : List Nat := [0x0a, 0x04, 0x12, 0x10, 0x00, 0x00, 0x00, 0x00]

/-- Interrupt packet `setup_4` (tminit.c line 31). -/
def setup_4 : List Nat := [0x0a, 0x04, 0x00, 0x06, 0x00, 0x00, 0x00, 0x00]

/-- `setup_arr` (tminit.c line 32): the five packets in their defined order. -/
def setup_arr : List (List Nat) := [setup_0, setup_1, setup_2, setup_3, setup_4]

/-- Linux errno `ENOMEM`, 12. -/
def ENOMEM : Int := 12

/-- The outbound transfers a probe run attempts, in order. -/
inductive ProbeAction where
  | sendInterrupt (packet : List Nat)
  | submitModelQuery
  | submitChange (switch_value : Nat)
deriving DecidableEq

/-- Outcomes supplied by the external USB stack during one probe run. -/
structure ProbeEnv where
  urb_ok : Bool
  model_request_ok : Bool
  response_ok : Bool
  change_request_ok : Bool
  int_buf_ok : Bool
  bNumEndpoints : Nat
  int_ret : Nat → Int
  submit_ret : Int

/-- The send loop of `thrustmaster_interrupts` (tminit.c lines 124-139):
packet `i` is sent, and the loop continues to packet `i+1` only when
`usb_interrupt_msg` returned 0 for packet `i`. -/
def send_setup (ret : Nat → Int) : Nat → List (List Nat) → List (List Nat)
  | _, [] => []
  | i, packet :: rest =>
      if ret i = 0 then packet :: send_setup ret (i + 1) rest
      else [packet]

/-- `thrustmaster_interrupts` (tminit.c lines 104-142): nothing is sent when
the send buffer allocation fails (lines 110-113) or the interface has fewer
than two endpoints (lines 115-119); otherwise the packets of `setup_arr` are
sent in order until the first failure. -/
def thrustmaster_interrupts (env : ProbeEnv) : List ProbeAction :=
  if !env.int_buf_ok then []
  else if env.bNumEndpoints < 2 then []
  else (send_setup env.int_ret 0 setup_arr).map ProbeAction.sendInterrupt

/-- `thrustmaster_submit_change` (tminit.c lines 160-182): fills the change
request with the switch value and submits it; returns `usb_submit_urb`'s
return code. -/
def thrustmaster_submit_change (env : ProbeEnv) (switch_value : Nat) :
    Int × List ProbeAction :=
  (env.submit_ret, [ProbeAction.submitChange switch_value])

/-- `thrustmaster_probe` (tminit.c lines 261-343): after the four session
allocations (lines 269-295, each failure returns `-ENOMEM` with nothing
submitted), product id 0xb69c takes the early hard-coded switch path
(lines 300-310) and returns without ever touching the query; every other
product id runs the interrupt quirk and then submits the model query
(lines 312-333), regardless of how the interrupt quirk fared.
Returns the probe's return value and the transfers attempted. -/
def thrustmaster_probe (env : ProbeEnv) (idProduct : Nat) : Int × List ProbeAction :=
  if !env.urb_ok then (-ENOMEM, [])
  else if !env.model_request_ok then (-ENOMEM, [])
  else if !env.response_ok then (-ENOMEM, [])
  else if !env.change_request_ok then (-ENOMEM, [])
  else if idProduct = 0xb69c then
    thrustmaster_submit_change env 0x000b
  else
    (env.submit_ret, thrustmaster_interrupts env ++ [ProbeAction.submitModelQuery])

/-! ## Helper lemmas about the resolution scans -/

theorem find_model_eq_none {m : Nat} {l : List tm_wheel_info} :
    find_model m l = none ↔ ∀ e ∈ l, e.model ≠ m := by
  induction l with
  | nil => simp [find_model]
  | cons e t ih =>
      simp only [find_model, List.forall_mem_cons]
      by_cases h : e.model = m
      · simp [h]
      · simp [h, ih]

theorem find_model_some_model {m : Nat} {l : List tm_wheel_info} {e : tm_wheel_info}
    {rest : List tm_wheel_info} (h : find_model m l = some (e, rest)) : e.model = m := by
  induction l with
  | nil => exact absurd h (by simp [find_model])
  | cons x t ih =>
      rw [find_model] at h
      split at h
      · cases h; assumption
      · exact ih h

theorem scan_attachment_some {m a : Nat} {l : List tm_wheel_info} {e : tm_wheel_info}
    (h : scan_attachment m a l = some e) : e.model = m ∧ e.attachment = a := by
  induction l with
  | nil => exact absurd h (by simp [scan_attachment])
  | cons x t ih =>
      rw [scan_attachment] at h
      split at h
      · split at h
        · cases h
          constructor <;> assumption
        · exact ih h
      · cases h

theorem scan_attachment_eq_none {m a : Nat} {l : List tm_wheel_info}
    (h : ∀ e ∈ l.takeWhile (fun e => e.model == m), e.attachment ≠ a) :
    scan_attachment m a l = none := by
  induction l with
  | nil => rfl
  | cons x t ih =>
      rw [scan_attachment]
      by_cases hx : x.model = m
      · have hxa : x.attachment ≠ a := by
          apply h
          simp [List.takeWhile_cons, hx]
        rw [if_pos hx, if_neg hxa]
        apply ih
        intro e he
        apply h
        rw [List.takeWhile_cons]
        simp only [hx, beq_self_eq_true, if_true, List.mem_cons]
        exact Or.inr he
      · rw [if_neg hx]

theorem resolve_eq_of_find {m a : Nat} {twi : tm_wheel_info} {rest : List tm_wheel_info}
    (hf : find_model m tm_wheels_infos = some (twi, rest)) :
    resolve m a =
      if twi.attachment = a then some (twi, true)
      else
        match scan_attachment m a rest with
        | some twi2 => some (twi2, true)
        | none => some (twi, false) := by
  unfold resolve
  rw [hf]

theorem resolve_isSome_of_find {m a : Nat} {twi : tm_wheel_info} {rest : List tm_wheel_info}
    (hf : find_model m tm_wheels_infos = some (twi, rest)) :
    ∃ r, resolve m a = some r := by
  rw [resolve_eq_of_find hf]
  split
  · exact ⟨_, rfl⟩
  · cases hs : scan_attachment m a rest with
    | none => exact ⟨_, rfl⟩
    | some twi2 => exact ⟨_, rfl⟩

theorem mem_interrupts {env : ProbeEnv} {a : ProbeAction}
    (h : a ∈ thrustmaster_interrupts env) : ∃ p, a = ProbeAction.sendInterrupt p := by
  unfold thrustmaster_interrupts at h
  split at h
  · exact absurd h (List.not_mem_nil a)
  · split at h
    · exact absurd h (List.not_mem_nil a)
    · obtain ⟨p, _, hp⟩ := List.mem_map.mp h
      exact ⟨p, hp.symm⟩

theorem probe_second_of_allocs {env : ProbeEnv} {idProduct : Nat}
    (hu : env.urb_ok = true) (hm : env.model_request_ok = true)
    (hr : env.response_ok = true) (hc : env.change_request_ok = true)
    (hne : idProduct ≠ 0xb69c) :
    thrustmaster_probe env idProduct =
      (env.submit_ret, thrustmaster_interrupts env ++ [ProbeAction.submitModelQuery]) := by
  unfold thrustmaster_probe
  rw [hu, hm, hr, hc]
  simp [hne]

theorem probe_actions_empty_or_query {env : ProbeEnv} {idProduct : Nat}
    (hne : idProduct ≠ 0xb69c) :
    (thrustmaster_probe env idProduct).2 = [] ∨
    (thrustmaster_probe env idProduct).2 =
      thrustmaster_interrupts env ++ [ProbeAction.submitModelQuery] := by
  obtain ⟨u, mq, rs, cr, ib, nE, ir, sr⟩ := env
  cases u <;> cases mq <;> cases rs <;> cases cr <;>
    simp [thrustmaster_probe, hne]

/-- A run of the external USB stack in which every allocation and every
transfer succeeds and the interface has two endpoints. -/
def probeEnvAllOk : ProbeEnv :=
  ⟨true, true, true, true, true, 2, fun _ => 0, 0⟩

/-! ## Claims -/

/-- Claim C1, counterexample: the catalog contains the T128 entry
(model 0x00, attachment 0x09, switch value 0x000b), but resolution of
(0x00, 0x09) selects the T500RS entry (the first model-0x00 entry), whose
switch value 0x0002 is what the handler then submits — not the T128 entry.
This refutes "for every (model, attachment) pair in the catalog, resolution
selects exactly that entry". -/
theorem claim_C1_counterexample :
    (⟨0x00, 0x09, 0x000b, "Thrustmaster T128"⟩ : tm_wheel_info) ∈ tm_wheels_infos ∧
    (resolve 0x00 0x09).map Prod.fst =
      some ⟨0x00, 0x02, 0x0002, "Thrustmaster T500RS"⟩ ∧
    (⟨0x00, 0x02, 0x0002, "Thrustmaster T500RS"⟩ : tm_wheel_info) ≠
      ⟨0x00, 0x09, 0x000b, "Thrustmaster T128"⟩ ∧
    thrustmaster_model_handler 0 [0x49, 0x00, 0x00, 0x00, 0x00, 0x00, 0x09, 0x00] =
      HandlerResult.switchSubmitted 0x0002 := by
  decide

/-- Claim C1, amended: for every (model, attachment) pair in the catalog
other than the shadowed T128 pair (0x00, 0x09), resolution selects exactly
that catalog entry, and on a well-formed layout-A response carrying that
pair the handler submits exactly that entry's switch value. -/
theorem claim_C1_amended :
    ∀ e ∈ tm_wheels_infos, ¬(e.model = 0x00 ∧ e.attachment = 0x09) →
      (resolve e.model e.attachment).map Prod.fst = some e ∧
      thrustmaster_model_handler 0
          [0x49, 0x00, 0x00, 0x00, 0x00, 0x00, e.attachment, e.model] =
        HandlerResult.switchSubmitted e.switch_value := by
  decide

/-- Witness for the amended claim C1 at the T300RS entry (0x02, 0x06). -/
theorem claim_C1_witness :
    (resolve 0x02 0x06).map Prod.fst =
      some ⟨0x02, 0x06, 0x0005, "Thrustmaster T300RS"⟩ ∧
    thrustmaster_model_handler 0 [0x49, 0x00, 0x00, 0x00, 0x00, 0x00, 0x06, 0x02] =
      HandlerResult.switchSubmitted 0x0005 :=
  claim_C1_amended ⟨0x02, 0x06, 0x0005, "Thrustmaster T300RS"⟩ (by decide) (by decide)

/-- Claim C2, counterexample: the entries at indices 0 and 7 share model
code 0x00, yet the entry at index 3 (strictly between them) has a different
model code — the model-0x00 entries are not contiguous. -/
theorem claim_C2_counterexample :
    (tm_wheels_infos.getD 0 default).model = (tm_wheels_infos.getD 7 default).model ∧
    (0:Nat) < 3 ∧ (3:Nat) < 7 ∧ 7 < tm_wheels_infos.length ∧
    (tm_wheels_infos.getD 3 default).model ≠ (tm_wheels_infos.getD 0 default).model := by
  decide

/-- Claim C2, amended: entries sharing a model code are contiguous for every
model code except 0x00 (which occurs at indices 0 and 7, with entries of
other models in between): for indices i ≤ j ≤ k, if the entries at i and k
share a model code other than 0x00 then the entry at j has that model code
too. -/
theorem claim_C2_amended :
    ∀ i j k : Nat, i ≤ j → j ≤ k → k < tm_wheels_infos.length →
      (tm_wheels_infos.getD i default).model = (tm_wheels_infos.getD k default).model →
      (tm_wheels_infos.getD i default).model ≠ 0x00 →
      (tm_wheels_infos.getD j default).model = (tm_wheels_infos.getD i default).model := by
  have h : ∀ k, k < 8 → ∀ j, j < 8 → ∀ i, i < 8 →
      ¬i ≤ j ∨ ¬j ≤ k ∨
      ¬(tm_wheels_infos.getD i default).model = (tm_wheels_infos.getD k default).model ∨
      (tm_wheels_infos.getD i default).model = 0x00 ∨
      (tm_wheels_infos.getD j default).model = (tm_wheels_infos.getD i default).model := by
    set_option synthInstance.maxSize 1000 in decide
  intro i j k hij hjk hk hm h0
  have hk8 : k < 8 := hk
  rcases h k hk8 j (by omega) i (by omega) with h1 | h1 | h1 | h1 | h1
  · exact absurd hij h1
  · exact absurd hjk h1
  · exact absurd hm h1
  · exact absurd h1 h0
  · exact h1

/-- Witness for the amended claim C2 at indices 1 ≤ 2 ≤ 5 (model 0x02). -/
theorem claim_C2_witness :
    (tm_wheels_infos.getD 2 default).model = (tm_wheels_infos.getD 1 default).model :=
  claim_C2_amended 1 2 5 (by decide) (by decide) (by decide) (by decide) (by decide)

/-- Claim C3: when the decoded model occurs in the catalog but the decoded
attachment occurs nowhere in the contiguous run of entries starting at the
first entry for that model, resolution returns that first entry (with
attachment_found = false) and never fails; resolution fails exactly when no
catalog entry carries the model code, and in that case the handler submits
no switch command. -/
theorem claim_C3_fallback_and_unknown_model :
    (∀ m a twi rest, find_model m tm_wheels_infos = some (twi, rest) →
        (∀ e ∈ twi :: rest.takeWhile (fun e => e.model == m), e.attachment ≠ a) →
        resolve m a = some (twi, false)) ∧
    (∀ m a, resolve m a = none ↔ ∀ e ∈ tm_wheels_infos, e.model ≠ m) ∧
    (∀ status bytes model attachment,
        decoded_ma (decodeProbeResponse bytes) = some (model, attachment) →
        resolve model attachment = none →
        switch_submissions (thrustmaster_model_handler status bytes) = []) := by
  refine ⟨?_, ?_, ?_⟩
  · intro m a twi rest hf hrun
    have h1 : twi.attachment ≠ a := hrun twi (List.mem_cons_self _ _)
    have h2 : scan_attachment m a rest = none :=
      scan_attachment_eq_none (fun e he => hrun e (List.mem_cons_of_mem _ he))
    rw [resolve_eq_of_find hf, if_neg h1, h2]
  · intro m a
    constructor
    · intro hr
      rw [← find_model_eq_none]
      cases hf : find_model m tm_wheels_infos with
      | none => rfl
      | some p =>
          obtain ⟨twi, rest⟩ := p
          obtain ⟨r, hr2⟩ := resolve_isSome_of_find (a := a) hf
          rw [hr] at hr2
          cases hr2
    · intro hn
      have hf : find_model m tm_wheels_infos = none := find_model_eq_none.mpr hn
      unfold resolve
      rw [hf]
  · intro status bytes model attachment hd hr
    rcases eq_or_ne status 0 with h0 | h0
    · subst h0
      simp [thrustmaster_model_handler, hd, hr, switch_submissions]
    · simp [thrustmaster_model_handler, h0, switch_submissions]

/-- Witness for claim C3: model 0x03 with absent attachment 0x00 falls back
to the first (and only) T150RS entry; model 0x05 is unknown, and on a
response decoding to model 0x05 the handler submits nothing. -/
theorem claim_C3_witness :
    resolve 0x03 0x00 = some (⟨0x03, 0x06, 0x0006, "Thrustmaster T150RS"⟩, false) ∧
    resolve 0x05 0x00 = none ∧
    switch_submissions
        (thrustmaster_model_handler 0 [0x49, 0x00, 0x00, 0x00, 0x00, 0x00, 0x00, 0x05]) =
      [] := by
  refine ⟨?_, ?_, ?_⟩
  · exact claim_C3_fallback_and_unknown_model.1 0x03 0x00
      ⟨0x03, 0x06, 0x0006, "Thrustmaster T150RS"⟩
      [⟨0x00, 0x09, 0x000b, "Thrustmaster T128"⟩] (by decide) (by decide)
  · exact (claim_C3_fallback_and_unknown_model.2.1 0x05 0x00).mpr (by decide)
  · exact claim_C3_fallback_and_unknown_model.2.2 0
      [0x49, 0x00, 0x00, 0x00, 0x00, 0x00, 0x00, 0x05] 0x05 0x00 (by decide) (by decide)

/-- Claim C4: the switch completion handler treats a clean status, `-EPROTO`
(protocol violation) and `-EPIPE` (endpoint halt) as success; every other
nonzero status is reported as a switch transport error, and neither outcome
resubmits anything. -/
theorem claim_C4_change_handler_statuses :
    ∀ status : Int,
      (thrustmaster_change_handler status = ChangeOutcome.success ↔
        status = 0 ∨ status = -EPROTO ∨ status = -EPIPE) ∧
      (status ≠ 0 → status ≠ -EPROTO → status ≠ -EPIPE →
        thrustmaster_change_handler status =
          ChangeOutcome.switchTransportError status) := by
  intro status
  by_cases h : status = 0 ∨ status = -EPROTO ∨ status = -EPIPE
  · constructor
    · simp [thrustmaster_change_handler, h]
    · intro h1 h2 h3
      exact absurd h (by tauto)
  · constructor
    · simp [thrustmaster_change_handler, h]
    · intro h1 h2 h3
      simp [thrustmaster_change_handler, h]

/-- Witness for claim C4: `-EPROTO` (-71) completes the session successfully,
while -5 (`-EIO`) is surfaced as a switch transport error. -/
theorem claim_C4_witness :
    thrustmaster_change_handler (-71) = ChangeOutcome.success ∧
    thrustmaster_change_handler (-5) = ChangeOutcome.switchTransportError (-5) :=
  ⟨(claim_C4_change_handler_statuses (-71)).1.mpr (by decide),
   (claim_C4_change_handler_statuses (-5)).2 (by decide) (by decide) (by decide)⟩

/-- Claim C5: for product id 0xb69c (Identity A, the T128) the probe never
submits the model query — whatever the allocation outcomes, the query
submission appears nowhere among the attempted transfers — and when the four
session allocations succeed, the probe's only transfer is the switch command
with the hard-coded value 0x000b, after which it returns. -/
theorem claim_C5_identity_a_early_switch :
    (∀ env : ProbeEnv, ProbeAction.submitModelQuery ∉ (thrustmaster_probe env 0xb69c).2) ∧
    (∀ env : ProbeEnv, env.urb_ok = true → env.model_request_ok = true →
      env.response_ok = true → env.change_request_ok = true →
      thrustmaster_probe env 0xb69c =
        (env.submit_ret, [ProbeAction.submitChange 0x000b])) := by
  constructor
  · intro env
    obtain ⟨u, mq, rs, cr, ib, nE, ir, sr⟩ := env
    cases u <;> cases mq <;> cases rs <;> cases cr <;>
      simp [thrustmaster_probe, thrustmaster_submit_change]
  · intro env hu hm hr hc
    unfold thrustmaster_probe
    rw [hu, hm, hr, hc]
    simp [thrustmaster_submit_change]

/-- Witness for claim C5 in the all-allocations-succeed environment. -/
theorem claim_C5_witness :
    thrustmaster_probe probeEnvAllOk 0xb69c = (0, [ProbeAction.submitChange 0x000b]) :=
  claim_C5_identity_a_early_switch.2 probeEnvAllOk rfl rfl rfl rfl

/-- Claim C6: per query-completion the switch command is submitted at most
once, and only carrying the switch value of a successfully resolved catalog
entry; on a transport error, an unrecognized response tag or an unknown
model the handler terminates without submitting; and the non-Identity-A
probe path itself never submits the switch command. -/
theorem claim_C6_switch_at_most_once :
    (∀ status bytes,
      (switch_submissions (thrustmaster_model_handler status bytes)).length ≤ 1) ∧
    (∀ status bytes v,
      thrustmaster_model_handler status bytes = HandlerResult.switchSubmitted v →
      status = 0 ∧ ∃ model attachment twi f,
        decoded_ma (decodeProbeResponse bytes) = some (model, attachment) ∧
        resolve model attachment = some (twi, f) ∧ v = twi.switch_value) ∧
    (∀ status bytes, status ≠ 0 →
      switch_submissions (thrustmaster_model_handler status bytes) = []) ∧
    (∀ status bytes, decoded_ma (decodeProbeResponse bytes) = none →
      switch_submissions (thrustmaster_model_handler status bytes) = []) ∧
    (∀ status bytes model attachment,
      decoded_ma (decodeProbeResponse bytes) = some (model, attachment) →
      resolve model attachment = none →
      switch_submissions (thrustmaster_model_handler status bytes) = []) ∧
    (∀ (env : ProbeEnv) (idProduct : Nat), idProduct ≠ 0xb69c →
      ∀ v, ProbeAction.submitChange v ∉ (thrustmaster_probe env idProduct).2) := by
  refine ⟨?_, ?_, ?_, ?_, ?_, ?_⟩
  · intro status bytes
    cases h : thrustmaster_model_handler status bytes <;> simp [switch_submissions]
  · intro status bytes v h
    unfold thrustmaster_model_handler at h
    by_cases hs : status ≠ 0
    · rw [if_pos hs] at h
      cases h
    · rw [if_neg hs] at h
      push_neg at hs
      refine ⟨hs, ?_⟩
      cases hd : decoded_ma (decodeProbeResponse bytes) with
      | none =>
          simp only [hd] at h
          cases h
      | some p =>
          obtain ⟨model, attachment⟩ := p
          simp only [hd] at h
          cases hr : resolve model attachment with
          | none =>
              simp only [hr] at h
              cases h
          | some q =>
              obtain ⟨twi, f⟩ := q
              simp only [hr] at h
              injection h with hv
              exact ⟨model, attachment, twi, f, rfl, hr, hv.symm⟩
  · intro status bytes hs
    simp [thrustmaster_model_handler, hs, switch_submissions]
  · intro status bytes hd
    rcases eq_or_ne status 0 with h0 | h0
    · subst h0
      simp [thrustmaster_model_handler, hd, switch_submissions]
    · simp [thrustmaster_model_handler, h0, switch_submissions]
  · intro status bytes model attachment hd hr
    rcases eq_or_ne status 0 with h0 | h0
    · subst h0
      simp [thrustmaster_model_handler, hd, hr, switch_submissions]
    · simp [thrustmaster_model_handler, h0, switch_submissions]
  · intro env idProduct hne v hmem
    rcases @probe_actions_empty_or_query env idProduct hne with h | h
    · rw [h] at hmem
      exact absurd hmem (List.not_mem_nil _)
    · rw [h] at hmem
      rcases List.mem_append.mp hmem with h1 | h1
      · obtain ⟨p, hp⟩ := mem_interrupts h1
        cases hp
      · have h2 := List.mem_singleton.mp h1
        cases h2

/-- Witness for claim C6: a failed query (-1) submits nothing, and the probe
for a non-0xb69c product never submits the switch command. -/
theorem claim_C6_witness :
    switch_submissions (thrustmaster_model_handler (-1) [0x49]) = [] ∧
    ProbeAction.submitChange 0x0005 ∉ (thrustmaster_probe probeEnvAllOk 0).2 :=
  ⟨claim_C6_switch_at_most_once.2.2.1 (-1) [0x49] (by decide),
   claim_C6_switch_at_most_once.2.2.2.2.2 probeEnvAllOk 0 (by decide) 0x0005⟩

/-- Claim C7: the decoder reads a little-endian 16-bit tag from bytes 0-1;
tag 0x0049 selects the A layout, tag 0x0047 the B layout, and any other tag
produces the unknown-format result carrying that tag, upon which the handler
stops with an unrecognized-response outcome; decoding is total — every byte
list, of any length and contents, yields exactly one of the three results. -/
theorem claim_C7_decode_tags_total :
    ∀ bytes : List Nat,
      (le16 bytes 0 = 0x49 → decodeProbeResponse bytes =
        DecodeResult.layoutA (bytes.getD a_model_offset 0) (bytes.getD a_attachment_offset 0)) ∧
      (le16 bytes 0 = 0x47 → decodeProbeResponse bytes =
        DecodeResult.layoutB (bytes.getD b_model_offset 0) (bytes.getD b_attachment_offset 0)) ∧
      (le16 bytes 0 ≠ 0x49 → le16 bytes 0 ≠ 0x47 →
        decodeProbeResponse bytes = DecodeResult.unknownFormat (le16 bytes 0) ∧
        thrustmaster_model_handler 0 bytes =
          HandlerResult.unrecognizedResponse (le16 bytes 0)) ∧
      ((∃ m a, decodeProbeResponse bytes = DecodeResult.layoutA m a) ∨
       (∃ m a, decodeProbeResponse bytes = DecodeResult.layoutB m a) ∨
       (∃ t, decodeProbeResponse bytes = DecodeResult.unknownFormat t)) := by
  intro bytes
  refine ⟨?_, ?_, ?_, ?_⟩
  · intro h
    simp [decodeProbeResponse, h]
  · intro h
    simp [decodeProbeResponse, h]
  · intro h1 h2
    constructor
    · simp [decodeProbeResponse, h1, h2]
    · simp [thrustmaster_model_handler, decodeProbeResponse, decoded_ma, h1, h2]
  · by_cases h1 : le16 bytes 0 = 0x49
    · exact Or.inl ⟨bytes.getD a_model_offset 0, bytes.getD a_attachment_offset 0,
        by simp [decodeProbeResponse, h1]⟩
    · by_cases h2 : le16 bytes 0 = 0x47
      · exact Or.inr (Or.inl ⟨bytes.getD b_model_offset 0, bytes.getD b_attachment_offset 0,
          by simp [decodeProbeResponse, h1, h2]⟩)
      · exact Or.inr (Or.inr ⟨le16 bytes 0, by simp [decodeProbeResponse, h1, h2]⟩)

/-- Witness for claim C7: tag 0x0049 decodes to the A layout, and tag
0x0001 is rejected as an unknown format even on a 1-byte buffer, with the
handler stopping there. -/
theorem claim_C7_witness :
    decodeProbeResponse [0x49, 0x00, 0x00, 0x00, 0x00, 0x00, 0x06, 0x02] =
      DecodeResult.layoutA 0x02 0x06 ∧
    decodeProbeResponse [0x01] = DecodeResult.unknownFormat 0x01 ∧
    thrustmaster_model_handler 0 [0x01] = HandlerResult.unrecognizedResponse 0x01 := by
  refine ⟨?_, ?_, ?_⟩
  · exact (claim_C7_decode_tags_total
      [0x49, 0x00, 0x00, 0x00, 0x00, 0x00, 0x06, 0x02]).1 (by decide)
  · exact ((claim_C7_decode_tags_total [0x01]).2.2.1 (by decide) (by decide)).1
  · exact ((claim_C7_decode_tags_total [0x01]).2.2.1 (by decide) (by decide)).2

/-- Claim C8: on the non-Identity-A path the quirk sequencer attempts the
five fixed packets in their defined order, proceeding to the next only after
the previous synchronous send was acknowledged with 0; it stops at the first
transport failure, sends nothing when the send-buffer allocation fails or
the interface has fewer than two endpoints — and in every one of these cases
the probe afterwards still submits the model query. -/
theorem claim_C8_quirk_sequence :
    (∀ env : ProbeEnv, env.int_buf_ok = true → 2 ≤ env.bNumEndpoints →
      (∀ i, env.int_ret i = 0) →
      thrustmaster_interrupts env = setup_arr.map ProbeAction.sendInterrupt) ∧
    (∀ env : ProbeEnv, ∀ k, env.int_buf_ok = true → 2 ≤ env.bNumEndpoints →
      k < 5 → (∀ i, i < k → env.int_ret i = 0) → env.int_ret k ≠ 0 →
      thrustmaster_interrupts env = (setup_arr.take (k + 1)).map ProbeAction.sendInterrupt) ∧
    (∀ env : ProbeEnv, env.int_buf_ok = false → thrustmaster_interrupts env = []) ∧
    (∀ env : ProbeEnv, env.bNumEndpoints < 2 → thrustmaster_interrupts env = []) ∧
    (∀ env : ProbeEnv, ∀ idProduct, idProduct ≠ 0xb69c → env.urb_ok = true →
      env.model_request_ok = true → env.response_ok = true → env.change_request_ok = true →
      (thrustmaster_probe env idProduct).2 =
        thrustmaster_interrupts env ++ [ProbeAction.submitModelQuery]) := by
  refine ⟨?_, ?_, ?_, ?_, ?_⟩
  · intro env hb he h
    simp [thrustmaster_interrupts, hb, Nat.not_lt.mpr he, setup_arr, send_setup,
      h 0, h 1, h 2, h 3, h 4]
  · intro env k hb he hk h hfail
    interval_cases k
    · simp [thrustmaster_interrupts, hb, Nat.not_lt.mpr he, setup_arr, send_setup, hfail]
    · simp [thrustmaster_interrupts, hb, Nat.not_lt.mpr he, setup_arr, send_setup,
        h 0 (by omega), hfail]
    · simp [thrustmaster_interrupts, hb, Nat.not_lt.mpr he, setup_arr, send_setup,
        h 0 (by omega), h 1 (by omega), hfail]
    · simp [thrustmaster_interrupts, hb, Nat.not_lt.mpr he, setup_arr, send_setup,
        h 0 (by omega), h 1 (by omega), h 2 (by omega), hfail]
    · simp [thrustmaster_interrupts, hb, Nat.not_lt.mpr he, setup_arr, send_setup,
        h 0 (by omega), h 1 (by omega), h 2 (by omega), h 3 (by omega), hfail]
  · intro env hb
    simp [thrustmaster_interrupts, hb]
  · intro env he
    by_cases hb : env.int_buf_ok
    · simp [thrustmaster_interrupts, hb, he]
    · simp [thrustmaster_interrupts, hb]
  · intro env idProduct hne hu hm hr hc
    rw [probe_second_of_allocs hu hm hr hc hne]

/-- A USB-stack run in which the third interrupt packet (index 2) fails with
-110 (`-ETIMEDOUT`) and everything else succeeds. -/
def probeEnvFailAt2 : ProbeEnv :=
  ⟨true, true, true, true, true, 2, fun i => if i < 2 then 0 else -110, 0⟩

/-- Witness for claim C8: with all sends acknowledged all five packets go
out in order; with the send of packet 2 failing only packets 0-2 are
attempted; and the probe still submits the model query afterwards. -/
theorem claim_C8_witness :
    thrustmaster_interrupts probeEnvAllOk = setup_arr.map ProbeAction.sendInterrupt ∧
    thrustmaster_interrupts probeEnvFailAt2 =
      (setup_arr.take 3).map ProbeAction.sendInterrupt ∧
    (thrustmaster_probe probeEnvAllOk 0).2 =
      thrustmaster_interrupts probeEnvAllOk ++ [ProbeAction.submitModelQuery] :=
  ⟨claim_C8_quirk_sequence.1 probeEnvAllOk rfl (by decide) (fun _ => rfl),
   claim_C8_quirk_sequence.2.1 probeEnvFailAt2 2 rfl (by decide) (by decide)
     (fun i hi => by simp [probeEnvFailAt2, hi]) (by decide),
   claim_C8_quirk_sequence.2.2.2.2 probeEnvAllOk 0 (by decide) rfl rfl rfl rfl⟩

/-- Claim C10: whenever resolution succeeds — by exact match, by the forward
attachment scan, or by the fallback — the resolved entry's model field
equals the decoded model code. -/
theorem claim_C10_resolved_model_eq :
    ∀ model attachment twi f,
      resolve model attachment = some (twi, f) → twi.model = model := by
  intro model attachment twi f h
  cases hf : find_model model tm_wheels_infos with
  | none =>
      unfold resolve at h
      rw [hf] at h
      simp at h
  | some p =>
      obtain ⟨cand, rest⟩ := p
      rw [resolve_eq_of_find hf] at h
      split at h
      · cases h
        exact find_model_some_model hf
      · cases hs : scan_attachment model attachment rest with
        | none =>
            simp only [hs] at h
            cases h
            exact find_model_some_model hf
        | some twi2 =>
            simp only [hs] at h
            cases h
            exact (scan_attachment_some hs).1

/-- Witness for claim C10 at the resolved pair (0x02, 0x06). -/
theorem claim_C10_witness :
    (⟨0x02, 0x06, 0x0005, "Thrustmaster T300RS"⟩ : tm_wheel_info).model = 0x02 :=
  claim_C10_resolved_model_eq 0x02 0x06 ⟨0x02, 0x06, 0x0005, "Thrustmaster T300RS"⟩ true
    (by decide)

/-- Claim C9: the A and B layouts place the attachment and model fields at
identical byte offsets (bytes 6 and 7 of the response), so for any buffer
whose tag is one of the two recognized values the extracted
(model, attachment) pair is the same regardless of which tag is present. -/
theorem claim_C9_layouts_agree :
    a_attachment_offset = b_attachment_offset ∧
    a_model_offset = b_model_offset ∧
    a_attachment_offset = 6 ∧ a_model_offset = 7 ∧
    (∀ bytes : List Nat, le16 bytes 0 = 0x49 ∨ le16 bytes 0 = 0x47 →
      decoded_ma (decodeProbeResponse bytes) = some (bytes.getD 7 0, bytes.getD 6 0)) := by
  refine ⟨rfl, rfl, rfl, rfl, ?_⟩
  intro bytes h
  rcases h with h | h <;>
    simp [decodeProbeResponse, decoded_ma, a_model_offset, a_attachment_offset,
      b_model_offset, b_attachment_offset, h]

/-- Witness for claim C9: the same payload under tag 0x0049 and under tag
0x0047 extracts the same (model, attachment) pair. -/
theorem claim_C9_witness :
    decoded_ma (decodeProbeResponse [0x49, 0x00, 0x00, 0x00, 0x00, 0x00, 0x09, 0x02]) =
      some (0x02, 0x09) ∧
    decoded_ma (decodeProbeResponse [0x47, 0x00, 0x00, 0x00, 0x00, 0x00, 0x09, 0x02]) =
      some (0x02, 0x09) :=
  ⟨claim_C9_layouts_agree.2.2.2.2 [0x49, 0x00, 0x00, 0x00, 0x00, 0x00, 0x09, 0x02]
      (Or.inl (by decide)),
   claim_C9_layouts_agree.2.2.2.2 [0x47, 0x00, 0x00, 0x00, 0x00, 0x00, 0x09, 0x02]
      (Or.inr (by decide))⟩

end Tminit
